import Mathlib

/-!
Verification of the flux-image-generator client orchestration layer.

Shallow embedding of the TypeScript sources:
- frontend/src/types (URL sanitizer/validator/diagnoser, data model)
- frontend/src/services/api.ts (transport retry, generate, polling, probes)
- frontend/src/hooks/useImageGenerator.ts (orchestrator, connection monitor)
- frontend/src/components/Settings/Settings.tsx (endpoint save path)

JS strings are embedded as Lean String (a list of chars); JS numbers that the
claims exercise are embedded as Int / Nat / Rat.
-/

namespace Flux

/-! ## JS string primitives -/

/-- Whitespace class of the JS `String.prototype.trim`: ASCII whitespace plus
the Unicode space separators and the BOM. -/
def jsWhitespaceChar (c : Char) : Bool :=
  c == ' ' || c == '\t' || c == '\n' || c == '\r' || c == '\x0b' || c == '\x0c' ||
  c == '\u00A0' || c == '\uFEFF' || c == '\u1680' ||
  (('\u2000' ≤ c) && (c ≤ '\u200A')) ||
  c == '\u2028' || c == '\u2029' || c == '\u202F' || c == '\u205F' || c == '\u3000'

/-- Drop from the right end of a list while the predicate holds. -/
def dropRightWhile (p : Char → Bool) (l : List Char) : List Char :=
  (l.reverse.dropWhile p).reverse

/-- Character-list form of JS `url.trim()`. -/
def trimChars (l : List Char) : List Char :=
  dropRightWhile jsWhitespaceChar (l.dropWhile jsWhitespaceChar)

/-- JS `s.trim()`. -/
def jsTrim (s : String) : String := ⟨trimChars s.data⟩

/-- JS `s.replace(/\/+$/, '')`: remove every trailing slash. -/
def dropTrailingSlashes (l : List Char) : List Char :=
  dropRightWhile (fun c => c == '/') l

/-- Whether the first list is an initial segment of the second
(JS `String.prototype.startsWith`). -/
def leadsWith : List Char → List Char → Bool
  | [], _ => true
  | _ :: _, [] => false
  | a :: p, b :: l => a == b && leadsWith p l

/-- Whether the first list occurs contiguously inside the second
(JS `String.prototype.includes`). -/
def hasSubstr (pat : List Char) : List Char → Bool
  | [] => pat.isEmpty
  | b :: l => leadsWith pat (b :: l) || hasSubstr pat l

/-- JS truthiness-based defaulting `a || b` for possibly-undefined strings:
an absent or empty string falls through to the default. -/
def jsOrString (a : Option String) (b : String) : String :=
  match a with
  | some s => if s = "" then b else s
  | none => b

/-- JS `a || b` where both sides are possibly-undefined strings. -/
def jsOrOpt (a b : Option String) : Option String :=
  match a with
  | some s => if s = "" then b else some s
  | none => b

/-- JS truthiness of a possibly-undefined string field. -/
def jsTruthyStr (o : Option String) : Bool :=
  match o with
  | some s => s ≠ ""
  | none => false

/-! ## URL sanitizer / validator / diagnoser (frontend/src/types, utils/validation) -/

/-- `sanitizeUrl(url) = url.trim().replace(/\/+$/, '')`. -/
def sanitizeUrl (url : String) : String :=
  ⟨dropTrailingSlashes (trimChars url.data)⟩

/-- Scheme characters accepted after the first letter of a URL scheme. -/
def schemeChar (c : Char) : Bool :=
  c.isAlpha || c.isDigit || c == '+' || c == '-' || c == '.'

/-- Modelled from the spec: the platform WHATWG `new URL(...)` constructor used
by `isValidUrl` and `detectUrlIssues` (it is a browser API, not repository
code). Simplified to the behaviour on the http(s)-style inputs the claims
exercise: tab and newline characters are stripped from the input, a scheme is
an initial letter followed by scheme characters and a colon, slashes after the
colon are skipped, and a nonempty remainder (the host) must follow. Returns
the lowercased scheme on success, `none` on parse failure. -/
def urlProtocol (l : List Char) : Option (List Char) :=
  let stripped := l.filter (fun c => !(c == '\t' || c == '\n' || c == '\r'))
  let scheme := stripped.takeWhile schemeChar
  let rest := stripped.drop scheme.length
  match scheme with
  | [] => none
  | c :: _ =>
    if c.isAlpha then
      match rest with
      | [] => none
      | ch :: afterColon =>
        if ch == ':' then
          if (afterColon.dropWhile (fun c2 => c2 == '/')).isEmpty then none
          else some (scheme.map Char.toLower)
        else none
    else none

/-- `isValidUrl`: `new URL(sanitizeUrl(url))` must succeed with protocol
`http:` or `https:`. -/
def isValidUrl (url : String) : Bool :=
  match urlProtocol (sanitizeUrl url).data with
  | some scheme => scheme == "http".data || scheme == "https".data
  | none => false

/-- `detectUrlIssues`: the prioritized diagnosis chain, checked against the
unsanitized input, in the source order of frontend/src/types (whitespace,
empty, spaces, protocol, parse, encoded spaces). -/
def detectUrlIssues (url : String) : Option String :=
  let trimmedUrl := jsTrim url
  if url ≠ trimmedUrl then some "URL contains leading or trailing whitespace"
  else if trimmedUrl = "" then some "URL cannot be empty"
  else if trimmedUrl.data.contains ' ' then
    some "URL contains spaces - please check for copy-paste errors"
  else if !(leadsWith "http://".data trimmedUrl.data ||
            leadsWith "https://".data trimmedUrl.data) then
    some "URL must start with http:// or https://"
  else if (urlProtocol trimmedUrl.data).isNone then some "Invalid URL format"
  else if hasSubstr "%20".data trimmedUrl.data then
    some "URL contains encoded spaces - please remove any spaces"
  else none

/-- `ApiService.updateApiEndpoint`: the stored base URL is
`endpoint.trim().replace(/\/+$/, '')`; no validation is performed here. -/
def updateApiEndpoint (endpoint : String) : String :=
  sanitizeUrl endpoint

/-- `Settings.handleSaveUrl`: applies the endpoint only when `detectUrlIssues`
reports nothing on the raw input and `isValidUrl` accepts the sanitized form;
returns the applied base URL, `none` when rejected with a toast. -/
def handleSaveUrl (apiUrl : String) : Option String :=
  match detectUrlIssues apiUrl with
  | some _ => none
  | none =>
    if isValidUrl (sanitizeUrl apiUrl) then
      some (updateApiEndpoint (sanitizeUrl apiUrl))
    else none

/-- Whether the string starts with a JS-whitespace character. -/
def hasLeadingWs (s : String) : Bool :=
  match s.data.head? with
  | some c => jsWhitespaceChar c
  | none => false


/-! ## Data model (frontend/src/types) -/

/-- Parameters for image generation. -/
structure GenerationParameters where
  prompt : String
  steps : Int
  cfgScale : Rat
  seed : Int
  width : Int
  height : Int
deriving DecidableEq

/-- A generated image with metadata, as stored in history. -/
structure GeneratedImage where
  id : String
  prompt : String
  parameters : GenerationParameters
  imageUrl : String
  timestamp : Nat
  duration : Option Rat
deriving DecidableEq

/-- Response from the /generate endpoint, fields the orchestrator reads. -/
structure ApiResponse where
  success : Bool
  image : Option String
  error : Option String
  duration : Option Rat
  seed : Option Int
deriving DecidableEq

/-- Job status enum of the progress-tracking responses. -/
inductive JobStatus where
  | queued | processing | completed | failed
deriving DecidableEq

/-- The result payload embedded in a completed progress response. -/
structure GenResult where
  images : List String
  seed : Int
  duration : Rat
deriving DecidableEq

/-- Progress tracking response from GET /progress/{requestId}. -/
structure ProgressResponse where
  status : JobStatus
  progress : Int
  result : Option GenResult
  error : Option String
deriving DecidableEq

/-- Outcome of `pollForCompletion`: the returned result, or the message of the
raised error. -/
inductive PollOutcome where
  | ok (r : GenResult)
  | err (msg : String)
deriving DecidableEq

/-- The tri-state connection status set by the connection monitor. -/
inductive ConnStatus where
  | checking | connected | disconnected
deriving DecidableEq

/-! ## Transport retry (ApiService.handleError, api.ts lines 114-142) -/

/-- up to 3 retries per logical request (`private readonly retryCount = 3`). -/
def retryCount : Nat := 3

/-- base backoff delay in ms (`private readonly retryDelay = 1000`). -/
def retryDelay : Nat := 1000

/-- Run of a request whose transport always fails, driven by
`ApiService.handleError`: the argument is the `config.retry` counter carried on
the axios config (`none` models the unset field of a fresh request). Each call
is one wire attempt that fails; `handleError` then either rejects
(`config.retry >= this.retryCount`) or sleeps
`retryDelay * 2 ^ (config.retry - 1)` ms after incrementing and resends.
Returns (total attempts performed, backoff delays slept in order). `fuel`
bounds the recursion and is irrelevant once at least `retryCount + 1`. -/
def alwaysFailAttempts : Nat → Option Nat → Nat × List Nat
  | 0, _ => (0, [])
  | fuel + 1, retry0 =>
    let retry := retry0.getD 0
    if retryCount ≤ retry then (1, [])
    else
      let retry1 := retry + 1
      let delayMs := retryDelay * 2 ^ (retry1 - 1)
      let rest := alwaysFailAttempts fuel (some retry1)
      (rest.1 + 1, delayMs :: rest.2)

/-! ## Generate request building (ApiService.generateImage, api.ts 245-252) -/

/-- Body of the POST /generate request. -/
structure GenerateRequestBody where
  prompt : String
  width : Int
  height : Int
  cfg_guidance : Rat
  steps : Int
  seed : Int
deriving DecidableEq

/-- The request body sent by `ApiService.generateImage`: field renames
(`cfgScale` to `cfg_guidance`) and seed resolution
(`parameters.seed === -1 ? Math.floor(Math.random() * 1000000) :
parameters.seed`). `r` stands for the value of
`Math.floor(Math.random() * 1000000)`, a natural number below 1000000. -/
def buildGenerateRequest (p : GenerationParameters) (r : Nat) : GenerateRequestBody :=
  { prompt := p.prompt
    width := p.width
    height := p.height
    cfg_guidance := p.cfgScale
    steps := p.steps
    seed := if p.seed = -1 then (r : Int) else p.seed }

/-! ## Error mapping of generateImage (api.ts 260-306) -/

/-- The data object of an axios error response. -/
structure ErrorResponseData where
  detail : Option String
  error : Option String
deriving DecidableEq

/-- The shape of an axios error the catch block of `generateImage` inspects:
an optional response (HTTP status and data), an optional error code, and the
underlying message. -/
structure AxiosLikeError where
  response : Option (Nat × ErrorResponseData)
  code : Option String
  message : String
deriving DecidableEq

/-- Message of the Error thrown by `generateImage` when the request failed,
mirroring the if-chain of the catch block: 503, 400 (with backend detail),
500, custom backend error, timeout, network, refused, generic. -/
def generateImageFailureMessage (e : AxiosLikeError) : String :=
  let status := e.response.map Prod.fst
  let data := e.response.map Prod.snd
  if status = some 503 then
    "🔄 AI models are still loading. This usually takes 1-2 minutes on first start. Please wait and try again."
  else if status = some 400 then
    "❌ Invalid parameters: " ++ jsOrString (data.bind (fun d => d.detail))
      (jsOrString (data.bind (fun d => d.error)) "")
  else if status = some 500 then
    "⚠️ Server error. The backend encountered an issue. Please check the logs."
  else if jsTruthyStr (data.bind (fun d => d.error)) then
    jsOrString (data.bind (fun d => d.error)) ""
  else if e.code = some "ECONNABORTED" then
    "⏱️ Request timed out after 2 minutes. The image might be too complex or the backend is overloaded."
  else if e.code = some "ERR_NETWORK" then
    "🌐 Network error. Please check:\n• Backend is running\n• API endpoint is correct\n• No firewall blocking the connection"
  else if e.code = some "ECONNREFUSED" then
    "🔌 Connection refused. The backend server is not running at the specified endpoint."
  else
    "Failed to generate image: " ++ e.message

/-! ## Polling (ApiService.pollForCompletion, api.ts 392-419) -/

/-- Whether a progress response ends the poll loop, and with what outcome:
`status === 'completed' && result` returns the result; `status === 'failed'`
throws `progress.error || 'Generation failed'`; anything else keeps polling. -/
def decisiveOutcome (p : ProgressResponse) : Option PollOutcome :=
  match p.status, p.result with
  | JobStatus.completed, some r => some (PollOutcome.ok r)
  | JobStatus.failed, _ => some (PollOutcome.err (jsOrString p.error "Generation failed"))
  | _, _ => none

/-- One-second-cadence poll loop of `pollForCompletion`. `resp j` is the
progress response of the j-th `checkProgress` call; iteration j happens at
elapsed time `j * 1000` ms (the `while (Date.now() - startTime < timeout)`
guard), and each iteration first invokes `onProgress` (recorded in the
returned list), then checks the decisive statuses, then sleeps 1000 ms.
`fuel` bounds the recursion; the time guard exits first whenever
`fuel > timeout`. -/
def pollStep (resp : Nat → ProgressResponse) (timeout : Nat) : Nat → Nat → PollOutcome × List Int
  | _, 0 => (PollOutcome.err "Generation timeout", [])
  | i, fuel + 1 =>
    if i * 1000 < timeout then
      let p := resp i
      match p.status, p.result with
      | JobStatus.completed, some r => (PollOutcome.ok r, [p.progress])
      | JobStatus.failed, _ =>
        (PollOutcome.err (jsOrString p.error "Generation failed"), [p.progress])
      | _, _ =>
        let rest := pollStep resp timeout (i + 1) fuel
        (rest.1, p.progress :: rest.2)
    else (PollOutcome.err "Generation timeout", [])

/-- `pollForCompletion requestId onProgress timeout` over the response
sequence `resp`: returns the outcome and the list of progress percentages
passed to `onProgress`, in call order. The source default timeout is
300000 ms (5 minutes). -/
def pollForCompletion (resp : Nat → ProgressResponse) (timeout : Nat) : PollOutcome × List Int :=
  pollStep resp timeout 0 (timeout + 1)

/-! ## Orchestrator success path (useImageGenerator.generateImage) -/

/-- The stored `GeneratedImage` produced by the hook `generateImage` for a
given connection status, current parameters, backend response, fresh UUID and
clock reading; `none` when a validation guard fires or the response is not a
success carrying an image (the thrown error is toasted, nothing is stored). -/
def generateImageHook (conn : ConnStatus) (params : GenerationParameters)
    (resp : ApiResponse) (newId : String) (now : Nat) : Option GeneratedImage :=
  let prompt := jsTrim params.prompt
  if prompt = "" then none
  else if 1000 < prompt.length then none
  else if conn = ConnStatus.disconnected then none
  else if params.width < 512 ∨ 2048 < params.width ∨
          params.height < 512 ∨ 2048 < params.height then none
  else if params.steps < 20 ∨ 50 < params.steps then none
  else if params.cfgScale < 1 ∨ 10 < params.cfgScale then none
  else if !(resp.success && jsTruthyStr resp.image) then none
  else
    let img := resp.image.getD ""
    let imageUrl :=
      if leadsWith "data:".data img.data then img
      else "data:image/png;base64," ++ img
    some { id := newId
           prompt := prompt
           parameters := { params with prompt := prompt }
           imageUrl := imageUrl
           timestamp := now
           duration := resp.duration }

/-! ## Health and status probes (api.ts 148-221) -/

/-- Health classification exposed by `checkHealth`. -/
inductive HealthStatus where
  | healthy | unhealthy
deriving DecidableEq

/-- Normalised health response returned by `ApiService.checkHealth`. -/
structure HealthResponse where
  status : HealthStatus
  model : Option String
  version : Option String
deriving DecidableEq

/-- Raw JSON body of GET /health as the code reads it. -/
structure RawHealth where
  premium : Bool
  model_loaded : Option Bool
  status : Option String
  model : Option String
  version : Option String
deriving DecidableEq

/-- `ApiService.checkHealth`: `none` models a thrown request error (the catch
branch returns status unhealthy); a KREA-format body (`premium` truthy with a
defined `model_loaded`) is healthy iff the model is loaded; a standard body is
healthy iff its status field is the string alive or healthy. -/
def checkHealth (probe : Option RawHealth) : HealthResponse :=
  match probe with
  | none => { status := HealthStatus.unhealthy, model := none, version := none }
  | some d =>
    if d.premium ∧ d.model_loaded ≠ none then
      { status := if d.model_loaded = some true then HealthStatus.healthy else HealthStatus.unhealthy
        model := some (jsOrString d.model "FLUX.1-Krea-dev")
        version := some (jsOrString d.version "1.0.0") }
    else
      { status := if d.status = some "alive" ∨ d.status = some "healthy"
                  then HealthStatus.healthy else HealthStatus.unhealthy
        model := d.model
        version := some (jsOrString d.version "1.0.0") }

/-- Raw JSON body of GET /status as the code reads it. -/
structure RawStatus where
  premium : Bool
  status : Option String
  model_loaded : Option Bool
  models_loaded : Option Bool
  models_loading : Option Bool
  message : Option String
  progress : Option String
deriving DecidableEq

/-- Normalised result of `ApiService.checkStatus`. -/
structure StatusResult where
  status : String
  model_loaded : Bool
  message : Option String
deriving DecidableEq

/-- `ApiService.checkStatus`: `none` models a thrown request error (caught,
yielding status error with model_loaded false); otherwise the KREA and
standard formats are normalised, with the `model_loaded`/`models_loaded`
aliases resolved by nullish coalescing and the message defaulted from
`models_loading`. -/
def checkStatus (probe : Option RawStatus) : StatusResult :=
  match probe with
  | none =>
    { status := "error", model_loaded := false, message := some "Unable to check status" }
  | some d =>
    if d.premium then
      { status := jsOrString d.status "ok"
        model_loaded := ((d.models_loaded).orElse (fun _ => d.model_loaded)).getD false
        message := jsOrOpt d.progress (jsOrOpt d.message
          (if d.models_loading = some true then some "Models are loading..." else none)) }
    else
      { status := jsOrString d.status "ok"
        model_loaded := ((d.model_loaded).orElse (fun _ => d.models_loaded)).getD false
        message := jsOrOpt d.message
          (if d.models_loading = some true then some "Models are loading..." else none) }

/-! ## Connection monitor (useImageGenerator.checkConnection, lines 25-62) -/

/-- One completed check cycle of the connection monitor: given the normalised
health and status probe results, the new connection status and the optional
supplementary loading notice toasted to the user. -/
def checkConnection (health : HealthResponse) (st : StatusResult) : ConnStatus × Option String :=
  if health.status = HealthStatus.healthy ∧ st.model_loaded then
    (ConnStatus.connected, none)
  else if health.status = HealthStatus.healthy ∧ ¬st.model_loaded then
    (ConnStatus.connected,
     some (jsOrString st.message "Backend is connected but models are still loading."))
  else (ConnStatus.disconnected, none)


/-! ## Helper lemmas -/

theorem stringExt {s t : String} (h : s.data = t.data) : s = t := by
  cases s
  cases t
  exact congrArg String.mk h

theorem dropRightWhile_eq_rdropWhile (p : Char → Bool) (l : List Char) :
    dropRightWhile p l = l.rdropWhile p := rfl

theorem dropRightWhile_idem (p : Char → Bool) (l : List Char) :
    dropRightWhile p (dropRightWhile p l) = dropRightWhile p l := by
  rw [dropRightWhile_eq_rdropWhile, dropRightWhile_eq_rdropWhile]
  exact List.rdropWhile_idempotent p l

theorem head?_dropWhile_false (p : Char → Bool) :
    ∀ (l : List Char) (c : Char), (l.dropWhile p).head? = some c → p c = false := by
  intro l
  induction l with
  | nil => intro c hc; simp [List.dropWhile] at hc
  | cons a t ih =>
    intro c hc
    rw [List.dropWhile_cons] at hc
    by_cases ha : p a
    · rw [if_pos ha] at hc
      exact ih c hc
    · rw [if_neg ha] at hc
      simp only [List.head?_cons, Option.some.injEq] at hc
      subst hc
      exact Bool.eq_false_iff.mpr ha

theorem head?_of_isPrefix {l m : List Char} (h : l <+: m) {c : Char}
    (hc : l.head? = some c) : m.head? = some c := by
  obtain ⟨t, rfl⟩ := h
  cases l with
  | nil => simp at hc
  | cons a u => simpa using hc

theorem sanitizeUrl_fix (x : String) (h : jsTrim (sanitizeUrl x) = sanitizeUrl x) :
    sanitizeUrl (sanitizeUrl x) = sanitizeUrl x := by
  have hdata : trimChars (sanitizeUrl x).data = (sanitizeUrl x).data := congrArg String.data h
  apply stringExt
  show dropTrailingSlashes (trimChars (sanitizeUrl x).data) = (sanitizeUrl x).data
  rw [hdata]
  show dropTrailingSlashes (dropTrailingSlashes (trimChars x.data))
      = dropTrailingSlashes (trimChars x.data)
  exact dropRightWhile_idem _ _

/-! ## Claims -/

/-- C1: a request whose transport always fails is attempted exactly
1 + retryCount = 4 times, and the backoff delay before retry n (1-indexed)
is retryDelay * 2 ^ (n - 1), i.e. 1000 ms, 2000 ms, 4000 ms. -/
theorem transport_retry_four_attempts (fuel : Nat) (hfuel : retryCount + 1 ≤ fuel) :
    alwaysFailAttempts fuel none =
      (1 + retryCount, (List.range retryCount).map (fun n => retryDelay * 2 ^ n)) ∧
    1 + retryCount = 4 ∧
    (List.range retryCount).map (fun n => retryDelay * 2 ^ n) = [1000, 2000, 4000] := by
  have h4 : 4 ≤ fuel := hfuel
  obtain ⟨k, rfl⟩ : ∃ k, fuel = k + 1 + 1 + 1 + 1 := ⟨fuel - 4, by omega⟩
  refine ⟨?_, by decide, by decide⟩
  simp [alwaysFailAttempts, retryCount, retryDelay]
  decide

/-- C1 witness: the run at fuel 4. -/
theorem transport_retry_four_attempts_witness :
    alwaysFailAttempts 4 none =
      (1 + retryCount, (List.range retryCount).map (fun n => retryDelay * 2 ^ n)) ∧
    1 + retryCount = 4 ∧
    (List.range retryCount).map (fun n => retryDelay * 2 ^ n) = [1000, 2000, 4000] :=
  transport_retry_four_attempts 4 (by decide)

/-- C3: with seed -1 the request body carries the freshly resolved random
seed, a nonnegative integer at most 999999999; any other seed is sent
unchanged. -/
theorem generate_seed_resolution (p : GenerationParameters) (r : Nat)
    (hr : r < 1000000) :
    (p.seed = -1 →
      0 ≤ (buildGenerateRequest p r).seed ∧ (buildGenerateRequest p r).seed ≤ 999999999) ∧
    (p.seed ≠ -1 → (buildGenerateRequest p r).seed = p.seed) := by
  have hseed : (buildGenerateRequest p r).seed
      = (if p.seed = -1 then (r : Int) else p.seed) := rfl
  constructor
  · intro h
    rw [hseed, if_pos h]
    omega
  · intro h
    rw [hseed, if_neg h]

/-- C3 witness: a seed of -1 with random draw 123456. -/
theorem generate_seed_resolution_witness :
    0 ≤ (buildGenerateRequest ⟨"a sunset", 30, 4, -1, 1024, 1024⟩ 123456).seed ∧
    (buildGenerateRequest ⟨"a sunset", 30, 4, -1, 1024, 1024⟩ 123456).seed ≤ 999999999 :=
  (generate_seed_resolution ⟨"a sunset", 30, 4, -1, 1024, 1024⟩ 123456 (by decide)).1 rfl

/-- C5 counterexample: sanitize is not idempotent; stripping the trailing
slash of "a /" exposes a trailing space that a second sanitize removes. -/
theorem sanitizeUrl_idempotence_fails :
    sanitizeUrl (sanitizeUrl "a /") ≠ sanitizeUrl "a /" := by decide

/-- C5 amended: sanitize is idempotent on every input whose sanitized form is
already trimmed, i.e. whenever slash-stripping does not expose trailing
whitespace. -/
theorem sanitizeUrl_idempotent_on_trimmed (x : String)
    (h : jsTrim (sanitizeUrl x) = sanitizeUrl x) :
    sanitizeUrl (sanitizeUrl x) = sanitizeUrl x :=
  sanitizeUrl_fix x h

/-- C5 witness: a URL with a trailing slash. -/
theorem sanitizeUrl_idempotent_on_trimmed_witness :
    sanitizeUrl (sanitizeUrl "https://example.com/") = sanitizeUrl "https://example.com/" :=
  sanitizeUrl_idempotent_on_trimmed "https://example.com/" (by decide)

/-- C7: on whitespace-only input the diagnoser reports the
leading/trailing-whitespace issue, because the source checks
url !== trimmedUrl before the emptiness check; the repository test
(utils/__tests__/validation.test.ts) and the spec expect the
"URL cannot be empty" issue first. -/
theorem detectUrlIssues_whitespace_only :
    detectUrlIssues "   " = some "URL contains leading or trailing whitespace" := by
  decide

/-- C8 counterexample: updateApiEndpoint performs no validation and its
trim-then-strip-slashes can store an endpoint with trailing whitespace. -/
theorem updateApiEndpoint_invariant_fails :
    updateApiEndpoint "http://a /" = "http://a " ∧
    jsTrim (updateApiEndpoint "http://a /") ≠ updateApiEndpoint "http://a /" := by
  decide

/-- C8 amended: every updateApiEndpoint call stores a base URL with no
trailing slash and no leading whitespace (trailing whitespace can survive);
http/https validation is enforced only by the Settings save path, which
applies an endpoint only when the raw input passes detectUrlIssues and the
sanitized input passes isValidUrl, storing the sanitized form. -/
theorem updateApiEndpoint_partial_invariant (e : String) :
    (updateApiEndpoint e).data.getLast? ≠ some '/' ∧
    hasLeadingWs (updateApiEndpoint e) = false ∧
    (∀ applied, handleSaveUrl e = some applied →
      detectUrlIssues e = none ∧ isValidUrl (sanitizeUrl e) = true ∧
      applied = updateApiEndpoint (sanitizeUrl e)) := by
  refine ⟨?_, ?_, ?_⟩
  · intro hc
    have h1 : (updateApiEndpoint e).data.reverse.head? = some '/' := by
      rw [← List.getLast?_eq_head?_reverse]
      exact hc
    have h2 : (updateApiEndpoint e).data.reverse
        = (trimChars e.data).reverse.dropWhile (fun c => c == '/') := by
      show (dropRightWhile (fun c => c == '/') (trimChars e.data)).reverse = _
      simp [dropRightWhile]
    rw [h2] at h1
    have := head?_dropWhile_false (fun c => c == '/') _ _ h1
    simp at this
  · cases hh : (updateApiEndpoint e).data.head? with
    | none => simp [hasLeadingWs, hh]
    | some c =>
      have hpre1 : (updateApiEndpoint e).data <+: trimChars e.data := by
        show dropRightWhile (fun c => c == '/') (trimChars e.data) <+: trimChars e.data
        rw [dropRightWhile_eq_rdropWhile]
        exact List.rdropWhile_prefix _ _
      have hpre2 : trimChars e.data <+: e.data.dropWhile jsWhitespaceChar := by
        show dropRightWhile jsWhitespaceChar (e.data.dropWhile jsWhitespaceChar) <+: _
        rw [dropRightWhile_eq_rdropWhile]
        exact List.rdropWhile_prefix _ _
      have hc2 : (e.data.dropWhile jsWhitespaceChar).head? = some c :=
        head?_of_isPrefix hpre2 (head?_of_isPrefix hpre1 hh)
      have := head?_dropWhile_false jsWhitespaceChar _ _ hc2
      simp [hasLeadingWs, hh, this]
  · intro applied h
    unfold handleSaveUrl at h
    cases hd : detectUrlIssues e with
    | some issue => rw [hd] at h; exact absurd h (by simp)
    | none =>
      rw [hd] at h
      by_cases hv : isValidUrl (sanitizeUrl e) = true
      · rw [if_pos hv] at h
        exact ⟨rfl, hv, (Option.some.injEq _ _ ▸ h).symm⟩
      · rw [if_neg hv] at h
        exact absurd h (by simp)

/-- C8 witness: saving a URL with a trailing slash through Settings. -/
theorem updateApiEndpoint_partial_invariant_witness :
    (updateApiEndpoint "https://example.com/").data.getLast? ≠ some '/' ∧
    hasLeadingWs (updateApiEndpoint "https://example.com/") = false ∧
    (detectUrlIssues "https://example.com/" = none ∧
     isValidUrl (sanitizeUrl "https://example.com/") = true ∧
     "https://example.com" = updateApiEndpoint (sanitizeUrl "https://example.com/")) := by
  have h := updateApiEndpoint_partial_invariant "https://example.com/"
  exact ⟨h.1, h.2.1, h.2.2 "https://example.com" (by decide)⟩


/-- C6 counterexample: a URL containing the encoded-space substring is
accepted by the validator yet diagnosed as an issue. -/
theorem valid_sanitized_url_diagnosis_gap :
    isValidUrl (sanitizeUrl "http://example.com/a%20b") = true ∧
    detectUrlIssues (sanitizeUrl "http://example.com/a%20b")
      = some "URL contains encoded spaces - please remove any spaces" := by
  decide

/-- C6 amended: a sanitized URL accepted by the validator passes diagnosis
provided it is already trimmed, starts with http:// or https://, and holds no
space character and no %20 substring; validator-accepted URLs outside these
provisos (encoded or literal spaces, scheme without slashes, exposed trailing
whitespace) are still diagnosed as issues. -/
theorem diagnose_none_on_clean_valid_urls (x : String)
    (hvalid : isValidUrl (sanitizeUrl x) = true)
    (htrim : jsTrim (sanitizeUrl x) = sanitizeUrl x)
    (hhttp : (leadsWith "http://".data (sanitizeUrl x).data
              || leadsWith "https://".data (sanitizeUrl x).data) = true)
    (hspace : (sanitizeUrl x).data.contains ' ' = false)
    (henc : hasSubstr "%20".data (sanitizeUrl x).data = false) :
    detectUrlIssues (sanitizeUrl x) = none := by
  have hfix : sanitizeUrl (sanitizeUrl x) = sanitizeUrl x := sanitizeUrl_fix x htrim
  have hne : sanitizeUrl x ≠ "" := by
    intro h0
    rw [h0] at hhttp
    exact absurd hhttp (by decide)
  have hproto : (urlProtocol (sanitizeUrl x).data).isNone = false := by
    unfold isValidUrl at hvalid
    rw [hfix] at hvalid
    cases hp : urlProtocol (sanitizeUrl x).data with
    | none => rw [hp] at hvalid; exact absurd hvalid (by decide)
    | some sch => rfl
  simp only [detectUrlIssues, htrim, hspace, hhttp, hproto, henc, ne_eq,
    not_true_eq_false, Bool.false_eq_true, if_false, Bool.not_true]
  simp [hne]

/-- C6 witness: a plain https URL with a trailing slash. -/
theorem diagnose_none_on_clean_valid_urls_witness :
    detectUrlIssues (sanitizeUrl "https://example.com/") = none :=
  diagnose_none_on_clean_valid_urls "https://example.com/"
    (by decide) (by decide) (by decide) (by decide) (by decide)

/-- C4 counterexample: a successful generation requested with seed -1 stores
the originating parameters unchanged, so the stored seed is -1, not the
resolved seed (42 here) reported by the backend. -/
theorem stored_seed_not_resolved :
    (generateImageHook ConnStatus.connected
        ⟨"a sunset", 30, 4, -1, 1024, 1024⟩
        ⟨true, some "data:image/png;base64,AAAA", none, none, some 42⟩
        "img-1" 1700000000).map (fun g => g.parameters.seed) = some (-1) := by
  decide

/-- C4 amended: the stored GeneratedImage keeps the originating parameters
with only the prompt replaced by its trimmed form; in particular a requested
seed of -1 is stored as -1, the seed resolved inside the API layer is not
written back. -/
theorem stored_parameters_keep_request_seed (conn : ConnStatus)
    (params : GenerationParameters) (resp : ApiResponse) (newId : String)
    (now : Nat) (img : GeneratedImage)
    (h : generateImageHook conn params resp newId now = some img) :
    img.parameters = { params with prompt := jsTrim params.prompt } ∧
    img.parameters.seed = params.seed ∧
    img.prompt = jsTrim params.prompt := by
  simp only [generateImageHook] at h
  repeat split at h
  all_goals simp_all
  obtain ⟨-, -, -, -, -, -, himg⟩ := h
  subst himg
  exact ⟨rfl, rfl, rfl⟩

/-- C4 witness: a successful generation with seed 7. -/
theorem stored_parameters_keep_request_seed_witness :
    (⟨"img-1", "a sunset", ⟨"a sunset", 30, 4, 7, 1024, 1024⟩,
      "data:image/png;base64,AAAA", 1700, none⟩ : GeneratedImage).parameters
      = { (⟨"a sunset", 30, 4, 7, 1024, 1024⟩ : GenerationParameters) with
          prompt := jsTrim "a sunset" } ∧
    (⟨"img-1", "a sunset", ⟨"a sunset", 30, 4, 7, 1024, 1024⟩,
      "data:image/png;base64,AAAA", 1700, none⟩ : GeneratedImage).parameters.seed = 7 ∧
    (⟨"img-1", "a sunset", ⟨"a sunset", 30, 4, 7, 1024, 1024⟩,
      "data:image/png;base64,AAAA", 1700, none⟩ : GeneratedImage).prompt
      = jsTrim "a sunset" :=
  stored_parameters_keep_request_seed ConnStatus.connected
    ⟨"a sunset", 30, 4, 7, 1024, 1024⟩
    ⟨true, some "data:image/png;base64,AAAA", none, none, some 7⟩
    "img-1" 1700
    ⟨"img-1", "a sunset", ⟨"a sunset", 30, 4, 7, 1024, 1024⟩,
      "data:image/png;base64,AAAA", 1700, none⟩
    (by decide)


theorem string_data_append (s t : String) : (s ++ t).data = s.data ++ t.data := rfl

theorem head?_append_of_cons {a : Char} {l m : List Char} (h : l.head? = some a) :
    (l ++ m).head? = some a := by
  cases l with
  | nil => simp at h
  | cons b u => simpa using h

/-- C9: the generateImage error mapping sends HTTP 503 to the models-loading
message, HTTP 500 to the server-error message, and HTTP 400 to the
invalid-parameters message carrying the backend-supplied detail; the three
messages are pairwise distinct. -/
theorem generate_error_classes (d : ErrorResponseData) (det : String)
    (hdet : det ≠ "") (e2 : Option String) (c : Option String) (m : String) :
    generateImageFailureMessage ⟨some (503, d), c, m⟩
      = "🔄 AI models are still loading. This usually takes 1-2 minutes on first start. Please wait and try again." ∧
    generateImageFailureMessage ⟨some (500, d), c, m⟩
      = "⚠️ Server error. The backend encountered an issue. Please check the logs." ∧
    generateImageFailureMessage ⟨some (400, ⟨some det, e2⟩), c, m⟩
      = "❌ Invalid parameters: " ++ det ∧
    generateImageFailureMessage ⟨some (503, d), c, m⟩
      ≠ generateImageFailureMessage ⟨some (500, d), c, m⟩ ∧
    generateImageFailureMessage ⟨some (503, d), c, m⟩
      ≠ generateImageFailureMessage ⟨some (400, ⟨some det, e2⟩), c, m⟩ ∧
    generateImageFailureMessage ⟨some (500, d), c, m⟩
      ≠ generateImageFailureMessage ⟨some (400, ⟨some det, e2⟩), c, m⟩ := by
  have h503 : generateImageFailureMessage ⟨some (503, d), c, m⟩
      = "🔄 AI models are still loading. This usually takes 1-2 minutes on first start. Please wait and try again." := by
    simp [generateImageFailureMessage]
  have h500 : generateImageFailureMessage ⟨some (500, d), c, m⟩
      = "⚠️ Server error. The backend encountered an issue. Please check the logs." := by
    simp [generateImageFailureMessage]
  have h400 : generateImageFailureMessage ⟨some (400, ⟨some det, e2⟩), c, m⟩
      = "❌ Invalid parameters: " ++ det := by
    simp [generateImageFailureMessage, jsOrString, hdet]
  have hhead : ("❌ Invalid parameters: " ++ det).data.head? = some '❌' := by
    rw [string_data_append]
    exact head?_append_of_cons (by decide)
  refine ⟨h503, h500, h400, ?_, ?_, ?_⟩
  · rw [h503, h500]
    decide
  · rw [h503, h400]
    intro heq
    have h1 : ("❌ Invalid parameters: " ++ det).data.head?
        = ("🔄 AI models are still loading. This usually takes 1-2 minutes on first start. Please wait and try again.").data.head? := by
      rw [heq]
    rw [hhead] at h1
    exact absurd h1 (by decide)
  · rw [h500, h400]
    intro heq
    have h1 : ("❌ Invalid parameters: " ++ det).data.head?
        = ("⚠️ Server error. The backend encountered an issue. Please check the logs.").data.head? := by
      rw [heq]
    rw [hhead] at h1
    exact absurd h1 (by decide)

/-- C9 witness: a 400 detail of bad size. -/
theorem generate_error_classes_witness :
    generateImageFailureMessage ⟨some (503, ⟨none, none⟩), none, "boom"⟩
      = "🔄 AI models are still loading. This usually takes 1-2 minutes on first start. Please wait and try again." ∧
    generateImageFailureMessage ⟨some (500, ⟨none, none⟩), none, "boom"⟩
      = "⚠️ Server error. The backend encountered an issue. Please check the logs." ∧
    generateImageFailureMessage ⟨some (400, ⟨some "bad size", none⟩), none, "boom"⟩
      = "❌ Invalid parameters: " ++ "bad size" ∧
    generateImageFailureMessage ⟨some (503, ⟨none, none⟩), none, "boom"⟩
      ≠ generateImageFailureMessage ⟨some (500, ⟨none, none⟩), none, "boom"⟩ ∧
    generateImageFailureMessage ⟨some (503, ⟨none, none⟩), none, "boom"⟩
      ≠ generateImageFailureMessage ⟨some (400, ⟨some "bad size", none⟩), none, "boom"⟩ ∧
    generateImageFailureMessage ⟨some (500, ⟨none, none⟩), none, "boom"⟩
      ≠ generateImageFailureMessage ⟨some (400, ⟨some "bad size", none⟩), none, "boom"⟩ :=
  generate_error_classes ⟨none, none⟩ "bad size" (by decide) none none "boom"

/-- C10: after one completed check cycle, a failed or unhealthy health probe
yields the disconnected status, while a healthy probe with the model not yet
loaded yields the connected status together with the supplementary
human-readable loading notice. -/
theorem connection_monitor_cycle (hp : Option RawHealth) (sp : Option RawStatus) :
    ((checkHealth hp).status = HealthStatus.unhealthy →
      checkConnection (checkHealth hp) (checkStatus sp)
        = (ConnStatus.disconnected, none)) ∧
    (hp = none →
      checkConnection (checkHealth hp) (checkStatus sp)
        = (ConnStatus.disconnected, none)) ∧
    ((checkHealth hp).status = HealthStatus.healthy →
      (checkStatus sp).model_loaded = false →
      checkConnection (checkHealth hp) (checkStatus sp)
        = (ConnStatus.connected,
           some (jsOrString (checkStatus sp).message
             "Backend is connected but models are still loading."))) := by
  refine ⟨?_, ?_, ?_⟩
  · intro h
    simp [checkConnection, h]
  · intro h
    subst h
    simp [checkHealth, checkConnection]
  · intro h hml
    simp [checkConnection, h, hml]

/-- C10 witness: a healthy standard probe with the model still loading. -/
theorem connection_monitor_cycle_witness :
    checkConnection
        (checkHealth (some ⟨false, none, some "alive", none, none⟩))
        (checkStatus (some ⟨false, some "ok", some false, none, some true, none, none⟩))
      = (ConnStatus.connected,
         some (jsOrString
           (checkStatus (some ⟨false, some "ok", some false, none, some true, none, none⟩)).message
           "Backend is connected but models are still loading.")) :=
  (connection_monitor_cycle
      (some ⟨false, none, some "alive", none, none⟩)
      (some ⟨false, some "ok", some false, none, some true, none, none⟩)).2.2
    (by decide) (by decide)


theorem pollStep_succ (resp : Nat → ProgressResponse) (timeout i fuel : Nat) :
    pollStep resp timeout i (fuel + 1) =
      if i * 1000 < timeout then
        match decisiveOutcome (resp i) with
        | some o => (o, [(resp i).progress])
        | none =>
          ((pollStep resp timeout (i + 1) fuel).1,
           (resp i).progress :: (pollStep resp timeout (i + 1) fuel).2)
      else (PollOutcome.err "Generation timeout", []) := by
  by_cases hc : i * 1000 < timeout <;>
    cases hs : (resp i).status <;> cases hr : (resp i).result <;>
      simp [pollStep, decisiveOutcome, hs, hr, hc]

theorem pollStep_reaches (resp : Nat → ProgressResponse) (timeout : Nat)
    (o : PollOutcome) :
    ∀ fuel i k, i ≤ k → k * 1000 < timeout →
      (∀ j, i ≤ j → j < k → decisiveOutcome (resp j) = none) →
      decisiveOutcome (resp k) = some o →
      k - i < fuel →
      pollStep resp timeout i fuel
        = (o, (List.range (k + 1 - i)).map (fun n => (resp (i + n)).progress)) := by
  intro fuel
  induction fuel with
  | zero => intro i k h1 h2 h3 h4 h5; omega
  | succ f ih =>
    intro i k h1 h2 h3 h4 h5
    rcases eq_or_lt_of_le h1 with rfl | hlt
    · rw [pollStep_succ, if_pos h2, h4]
      have hone : i + 1 - i = 1 := by omega
      rw [hone]
      simp [List.range_succ]
    · have hci : i * 1000 < timeout :=
        lt_of_le_of_lt (Nat.mul_le_mul_right 1000 (le_of_lt hlt)) h2
      have hdi : decisiveOutcome (resp i) = none := h3 i le_rfl hlt
      rw [pollStep_succ, if_pos hci, hdi]
      have hrec := ih (i + 1) k (by omega) h2
        (fun j hj1 hj2 => h3 j (by omega) hj2) h4 (by omega)
      rw [hrec]
      have hk1 : k + 1 - i = (k - i) + 1 := by omega
      have hk2 : k + 1 - (i + 1) = k - i := by omega
      rw [hk1, hk2, List.range_succ_eq_map]
      simp only [List.map_cons, List.map_map, Function.comp]
      refine congrArg (Prod.mk o) ?_
      refine congrArg₂ List.cons (by simp) ?_
      refine List.map_congr_left ?_
      intro a _
      have ha : i + 1 + a = i + Nat.succ a := by omega
      simp [ha]

theorem pollStep_timeout (resp : Nat → ProgressResponse) (timeout : Nat)
    (hall : ∀ j, j * 1000 < timeout → decisiveOutcome (resp j) = none) :
    ∀ fuel i, (pollStep resp timeout i fuel).1 = PollOutcome.err "Generation timeout" := by
  intro fuel
  induction fuel with
  | zero => intro i; rfl
  | succ f ih =>
    intro i
    rw [pollStep_succ]
    by_cases hc : i * 1000 < timeout
    · rw [if_pos hc, hall i hc]
      exact ih (i + 1)
    · rw [if_neg hc]

/-- C2: pollForCompletion returns the embedded result of the first decisive
response when its status is completed and a result is present (within the
timeout), raises the embedded error message on a failed status, raises the
distinct timeout error when no decisive response arrives in time, and invokes
onProgress with the progress percentage of every polled response. -/
theorem pollForCompletion_contract (resp : Nat → ProgressResponse)
    (timeout k : Nat) (hk : k * 1000 < timeout)
    (hprev : ∀ j, j < k → decisiveOutcome (resp j) = none) :
    (∀ r, (resp k).status = JobStatus.completed → (resp k).result = some r →
      pollForCompletion resp timeout
        = (PollOutcome.ok r, (List.range (k + 1)).map (fun j => (resp j).progress))) ∧
    ((resp k).status = JobStatus.failed →
      pollForCompletion resp timeout
        = (PollOutcome.err (jsOrString (resp k).error "Generation failed"),
           (List.range (k + 1)).map (fun j => (resp j).progress))) ∧
    ((∀ j, j * 1000 < timeout → decisiveOutcome (resp j) = none) →
      (pollForCompletion resp timeout).1 = PollOutcome.err "Generation timeout") := by
  have hfuel : k - 0 < timeout + 1 := by
    have hle : k ≤ k * 1000 := Nat.le_mul_of_pos_right k (by omega)
    omega
  refine ⟨?_, ?_, ?_⟩
  · intro r hs hr
    have hdec : decisiveOutcome (resp k) = some (PollOutcome.ok r) := by
      simp [decisiveOutcome, hs, hr]
    have hstep := pollStep_reaches resp timeout (PollOutcome.ok r) (timeout + 1) 0 k
      (Nat.zero_le k) hk (fun j _ hj => hprev j hj) hdec hfuel
    unfold pollForCompletion
    rw [hstep]
    simp
  · intro hs
    have hdec : decisiveOutcome (resp k)
        = some (PollOutcome.err (jsOrString (resp k).error "Generation failed")) := by
      cases hr : (resp k).result <;> simp [decisiveOutcome, hs, hr]
    have hstep := pollStep_reaches resp timeout
      (PollOutcome.err (jsOrString (resp k).error "Generation failed")) (timeout + 1) 0 k
      (Nat.zero_le k) hk (fun j _ hj => hprev j hj) hdec hfuel
    unfold pollForCompletion
    rw [hstep]
    simp
  · intro hall
    exact pollStep_timeout resp timeout hall (timeout + 1) 0

/-- C2 witness: a processing response followed by a completed one. -/
theorem pollForCompletion_contract_witness :
    pollForCompletion
        (fun j => if j = 0 then ⟨JobStatus.processing, 10, none, none⟩
                  else ⟨JobStatus.completed, 55, some ⟨["img"], 42, 3⟩, none⟩) 300000
      = (PollOutcome.ok ⟨["img"], 42, 3⟩, [10, 55]) :=
  ((pollForCompletion_contract
      (fun j => if j = 0 then ⟨JobStatus.processing, 10, none, none⟩
                else ⟨JobStatus.completed, 55, some ⟨["img"], 42, 3⟩, none⟩)
      300000 1 (by decide) (by decide)).1
    ⟨["img"], 42, 3⟩ (by decide) (by decide)).trans (by decide)

end Flux
